import Mathlib

/-!
Verification of the StorageCompressAI repository against its specification.

The repository has two components:
* a Fastify (Node.js) API gateway, whose JavaScript sources are present
  (`routes/compression.js` — two bundled handler variants —, `services/compression.js`,
  `config.js`, `middleware.js`, `utils.js`);
* a Rust compression service (`image-compressor-rust-service`) whose `src/lib.rs`
  and `src/main.rs` are absent from the sources; only its `Cargo.toml`, `Dockerfile`
  and documentation are present.  Definitions for that missing code are modelled
  from the specification and are marked `Modelled from the spec:` in their
  doc comments.

The JavaScript sources are embedded shallowly: buffers are `List Nat` (byte
values), thrown errors are the `Except.error` branch carrying the JS error
message, and the external `fetch` calls made by the gateway are oracle
function parameters.
-/

namespace StorageCompressAI

/-! ## JavaScript primitives used by `utils.js` -/

/-- The JS whitespace characters relevant to `parseInt` trimming. -/
def isJsSpace (c : Char) : Bool :=
  c = ' ' || c = '\t' || c = '\n' || c = '\r'

/-- Decimal digit test. -/
def isDecDigit (c : Char) : Bool :=
  '0' ≤ c && c ≤ '9'

/-- Value of one digit character in the given radix (10 or 16), `none` if the
character is not a digit of that radix. -/
def charDigit (radix : Nat) (c : Char) : Option Nat :=
  if isDecDigit c && c.toNat - '0'.toNat < radix then
    some (c.toNat - '0'.toNat)
  else if radix = 16 && 'a' ≤ c && c ≤ 'f' then
    some (c.toNat - 'a'.toNat + 10)
  else if radix = 16 && 'A' ≤ c && c ≤ 'F' then
    some (c.toNat - 'A'.toNat + 10)
  else
    none

/-- Accumulate the longest leading run of radix digits, stopping at the first
non-digit, as JS `parseInt` does. -/
def takeDigitsAcc (radix : Nat) (acc : Nat) : List Char → Nat
  | [] => acc
  | c :: rest =>
    match charDigit radix c with
    | some d => takeDigitsAcc radix (acc * radix + d) rest
    | none => acc

/-- Parse the longest leading run of radix digits; `none` when the first
character is not a digit (JS `NaN`). -/
def takeDigits (radix : Nat) : List Char → Option Nat
  | [] => none
  | c :: rest =>
    match charDigit radix c with
    | some _ => some (takeDigitsAcc radix 0 (c :: rest))
    | none => none

/-- JS `parseInt(string)` with no explicit radix: trim leading whitespace,
read an optional sign, switch to radix 16 after a `0x`/`0X` marker, then take
the longest leading digit run.  `none` models `NaN`. -/
def jsParseInt (s : String) : Option Int :=
  let cs := s.data.dropWhile isJsSpace
  let signAndRest : Int × List Char :=
    match cs with
    | '-' :: t => (-1, t)
    | '+' :: t => (1, t)
    | _ => (1, cs)
  let radixAndRest : Nat × List Char :=
    match signAndRest.2 with
    | '0' :: 'x' :: t => (16, t)
    | '0' :: 'X' :: t => (16, t)
    | _ => (10, signAndRest.2)
  match takeDigits radixAndRest.1 radixAndRest.2 with
  | none => none
  | some n => some (signAndRest.1 * (n : Int))

/-- `parseQuality` from `utils.js`:
`const parsed = parseInt(quality); if (isNaN(parsed) || parsed < 1 || parsed > 100) return defaultQuality; return parsed;`
The argument is taken in its JS string form (JS `parseInt` stringifies its
argument first). -/
def parseQuality (quality : String) (defaultQuality : Int) : Int :=
  match jsParseInt quality with
  | none => defaultQuality
  | some parsed => if parsed < 1 || parsed > 100 then defaultQuality else parsed

example : jsParseInt "50.7" = some 50 := by decide
example : jsParseInt "50abc" = some 50 := by decide
example : jsParseInt "abc" = none := by decide
example : jsParseInt "" = none := by decide
example : jsParseInt " 0x20" = some 32 := by decide
example : parseQuality "50.7" 80 = 50 := by decide
example : parseQuality "101" 80 = 80 := by decide
example : parseQuality "0" 80 = 80 := by decide

/-- JS `String.prototype.includes` on character lists: does `sub` occur as a
contiguous run inside `l`? -/
def hasSubSeq : List Char → List Char → Bool
  | l@(_ :: t), sub => sub.isPrefixOf l || hasSubSeq t sub
  | [], sub => sub.isEmpty

/-- JS `s.includes(sub)`. -/
def jsIncludes (s sub : String) : Bool :=
  hasSubSeq s.data sub.data

example : jsIncludes "Compression failed: boom" "Compression failed" = true := by decide
example : jsIncludes "Supabase upload failed: x" "Compression failed" = false := by decide

/-! ## Configuration (`config.js`, `upload` section, environment defaults) -/

/-- The `upload` section of `config.js` with its environment-variable defaults:
`maxSize = parseInt(MAX_FILE_SIZE || '10485760')`,
`allowedMimeTypes = (ALLOWED_MIME_TYPES || 'image/jpeg,image/png,image/webp').split(',')`,
`defaultQuality = parseInt(DEFAULT_QUALITY || '80')`. -/
structure UploadConfig where
  maxSize : Nat
  allowedMimeTypes : List String
  defaultQuality : Int
deriving DecidableEq

/-- The defaults taken when no environment override is present. -/
def defaultUploadConfig : UploadConfig :=
  { maxSize := 10485760
    allowedMimeTypes := ["image/jpeg", "image/png", "image/webp"]
    defaultQuality := 80 }

/-! ## `utils.js`: upload validation and error responses -/

/-- A multipart file as seen by the route handler (`data` from `request.file()`):
its name, declared mimetype and byte content.  `file.bytesRead` of the stream
is the content length. -/
structure UploadedFile where
  filename : String
  mimetype : String
  content : List Nat
deriving DecidableEq

/-- `data.file.bytesRead` / buffered length of the upload. -/
def bytesRead (f : UploadedFile) : Nat := f.content.length

/-- The three failure branches of `validateFileUpload` in `utils.js`, in source
order: no file, disallowed mimetype, file larger than `maxSize`. -/
inductive ValidationError where
  | noFile
  | invalidFileType
  | fileTooLarge
deriving DecidableEq

/-- The `error` message strings of `validateFileUpload`.  The human-readable
size rendering of the oversized message (`formatBytes`, which uses JS
floating-point `Math.log`/`toFixed`) is elided: the byte count is shown
directly. -/
def validationMessage (cfg : UploadConfig) : ValidationError → String
  | .noFile => "No file provided"
  | .invalidFileType =>
      "Invalid file type. Allowed types: " ++ String.intercalate ", " cfg.allowedMimeTypes
  | .fileTooLarge =>
      "File too large. Maximum size allowed: " ++ toString cfg.maxSize ++ " bytes"

/-- `validateFileUpload(file, { maxSize, allowedMimeTypes })` from `utils.js`:
checks in order for a missing file, a disallowed mimetype, and an oversized
payload (`file.file.bytesRead > maxSize`); `none` is `{ isValid: true }`. -/
def validateFileUpload (file : Option UploadedFile) (cfg : UploadConfig) :
    Option ValidationError :=
  match file with
  | none => some .noFile
  | some f =>
    if !(cfg.allowedMimeTypes.contains f.mimetype) then some .invalidFileType
    else if bytesRead f > cfg.maxSize then some .fileTooLarge
    else none

/-- The JSON object built by `createErrorResponse(message, details, code)`:
`{ error: true, message, ...(details && { details }), ...(code && { code }) }`.
A falsy `details`/`code` (absent or empty string) omits the field. -/
structure ErrorBody where
  message : String
  details : Option String
  code : Option String
deriving DecidableEq

def createErrorResponse (message : String) (details : Option String)
    (code : Option String) : ErrorBody :=
  { message := message
    details := match details with
      | some "" => none
      | d => d
    code := match code with
      | some "" => none
      | c => c }

/-! ## The `/compress` route (`routes/compression.js`)

The file bundles two complete variants of the route module.  Both share the
same validation and `catch` logic; they differ in how the payload is fed to the
compression service (stream vs `data.toBuffer()` — both carry the same bytes
here) and in the success response (JSON upload summary vs the raw compressed
bytes with a Content-Type header).  External calls (`compressionService
.compressImage`, `supabaseService.uploadFile`) are oracle parameters; an
`Except.error` is a thrown JS error carrying its message. -/

/-- A JS primitive as it can appear in `request.body?.quality`. -/
inductive JSPrim where
  | num (n : Int)
  | str (s : String)
deriving DecidableEq

/-- JS truthiness of such a value (`0` and `""` are falsy). -/
def jsTruthy : JSPrim → Bool
  | .num n => n != 0
  | .str s => s != ""

/-- JS `toString` of such a value (integral numbers print in decimal). -/
def jsToString : JSPrim → String
  | .num n => toString n
  | .str s => s

/-- An incoming Transform request at the gateway: the multipart file (if any)
and the optional out-of-band `quality` and `format` fields. -/
structure CompressRequest where
  file : Option UploadedFile
  quality : Option JSPrim
  format : Option String

/-- The result object of `supabaseService.uploadFile`. -/
structure UploadResult where
  key : String
  url : String
  size : Nat
deriving DecidableEq

/-- A response sent by the route handler.  `uploadJson` is the first variant's
success body `{ ...uploadResult, originalSize, compressionRatio }`; the
`compressionRatio` string (float `toFixed(2)` of `originalSize / size`) is
elided, being determined by the two sizes carried here. -/
inductive Response where
  | errorJson (status : Nat) (body : ErrorBody)
  | uploadJson (status : Nat) (url : String) (key : String) (size : Nat)
      (originalSize : Nat)
  | raw (status : Nat) (contentType : String) (payload : List Nat)
deriving DecidableEq

/-- The `catch` block shared verbatim by both `/compress` variants:
a thrown message containing `'Compression failed'` yields a 500
`COMPRESSION_ERROR`, anything else a 500 `UPLOAD_ERROR`; in both cases the
thrown `error.message` is placed in the `details` field of the response. -/
def compressCatch (m : String) : Response :=
  if jsIncludes m "Compression failed" then
    .errorJson 500 (createErrorResponse "Compression failed" (some m) (some "COMPRESSION_ERROR"))
  else
    .errorJson 500 (createErrorResponse "Upload failed" (some m) (some "UPLOAD_ERROR"))

/-- First bundled `/compress` handler (`routes/compression.js`, first variant):
validates the upload, compresses, uploads, and returns the JSON upload summary
`{ ...uploadResult, originalSize, compressionRatio }`.  (In the source this
variant passes the multipart stream `data.file` to the service; its byte
content is the same `f.content`.) -/
def compressHandlerV1 (cfg : UploadConfig)
    (compressImage : List Nat → Option JSPrim → Option String → Except String (List Nat))
    (uploadFile : List Nat → String → String → Except String UploadResult)
    (filename : String) (req : CompressRequest) : Response :=
  match validateFileUpload req.file cfg with
  | some e =>
    .errorJson 400 (createErrorResponse "Invalid file" (some (validationMessage cfg e))
      (some "VALIDATION_ERROR"))
  | none =>
    match req.file with
    | none =>
      -- unreachable: `validateFileUpload none cfg = some .noFile`
      .errorJson 400 (createErrorResponse "Invalid file"
        (some (validationMessage cfg .noFile)) (some "VALIDATION_ERROR"))
    | some f =>
      let originalSize := bytesRead f
      match compressImage f.content req.quality req.format with
      | .error m => compressCatch m
      | .ok compressedBuffer =>
        match uploadFile compressedBuffer filename f.mimetype with
        | .error m => compressCatch m
        | .ok u => .uploadJson 200 u.url u.key u.size originalSize

/-- Second bundled `/compress` handler (`routes/compression.js`, second
variant): same validation, compression (on the buffered payload) and upload,
but the success response is `reply.header('Content-Type', 'image/jpeg')`
followed by `reply.send(compressedBuffer)` — the raw compressed bytes. -/
def compressHandlerV2 (cfg : UploadConfig)
    (compressImage : List Nat → Option JSPrim → Option String → Except String (List Nat))
    (uploadFile : List Nat → String → String → Except String UploadResult)
    (filename : String) (req : CompressRequest) : Response :=
  match validateFileUpload req.file cfg with
  | some e =>
    .errorJson 400 (createErrorResponse "Invalid file" (some (validationMessage cfg e))
      (some "VALIDATION_ERROR"))
  | none =>
    match req.file with
    | none =>
      -- unreachable: `validateFileUpload none cfg = some .noFile`
      .errorJson 400 (createErrorResponse "Invalid file"
        (some (validationMessage cfg .noFile)) (some "VALIDATION_ERROR"))
    | some f =>
      match compressImage f.content req.quality req.format with
      | .error m => compressCatch m
      | .ok compressedBuffer =>
        match uploadFile compressedBuffer filename f.mimetype with
        | .error m => compressCatch m
        | .ok _u => .raw 200 "image/jpeg" compressedBuffer

/-! ## Quality forwarding (`services/compression.js` plus the Rust header parse)

`CompressionService.compressImage` builds the request headers with
`...(options.quality && { 'X-Compression-Quality': options.quality.toString() })`:
the header is present exactly when the supplied quality value is truthy, and
carries its JS string form.  The Rust side that consumes the header lives in
`src/main.rs`, which is absent from the repository sources, and is modelled
from the spec below. -/

/-- The `X-Compression-Quality` header value sent by
`CompressionService.compressImage` for a given `options.quality`. -/
def qualityHeaderValue (quality : Option JSPrim) : Option String :=
  match quality with
  | none => none
  | some v => if jsTruthy v then some (jsToString v) else none

/-- Strict decimal parse of a header string (all characters must be decimal
digits), as an integer parse on the Rust side would accept. -/
def parseDecimal (s : String) : Option Int :=
  match s.data with
  | [] => none
  | c :: rest =>
    if (c :: rest).all isDecDigit then some ((takeDigitsAcc 10 0 (c :: rest) : Nat) : Int)
    else none

/-- Modelled from the spec: the Serving Shell (`src/main.rs` of
`image-compressor-rust-service`, absent from the sources) reads the optional
`X-Compression-Quality` header; "any value outside [1,100], missing, or
non-numeric is replaced by the configured default quality (80) — this never
fails the request". -/
def rustParseQualityHeader (header : Option String) (defaultQuality : Int) : Int :=
  match header with
  | none => defaultQuality
  | some s =>
    match parseDecimal s with
    | none => defaultQuality
    | some n => if n < 1 || n > 100 then defaultQuality else n

/-- The quality that reaches the encoder for a given gateway-side
`request.body?.quality`: the gateway header construction composed with the
(spec-modelled) Rust header parse at the default quality 80. -/
def effectiveQuality (quality : Option JSPrim) : Int :=
  rustParseQualityHeader (qualityHeaderValue quality) 80

/-- `CompressionService.compressImage` as a function of the underlying
compression pipeline: it forwards the payload with the quality header, and a
non-ok response makes it throw `` `Compression failed: ${error}` ``. -/
def gatewayCompressImage (pipeline : List Nat → Int → Except String (List Nat)) :
    List Nat → Option JSPrim → Option String → Except String (List Nat) :=
  fun data quality _format =>
    match pipeline data (effectiveQuality quality) with
    | .error e => .error ("Compression failed: " ++ e)
    | .ok b => .ok b

example : effectiveQuality none = 80 := by decide
example : effectiveQuality (some (.num 0)) = 80 := by decide
example : effectiveQuality (some (.num 101)) = 80 := by decide
example : effectiveQuality (some (.str "abc")) = 80 := by decide
example : effectiveQuality (some (.num 85)) = 85 := by decide
example : effectiveQuality (some (.str "42")) = 42 := by decide

/-! ## The Codec Pipeline (`image-compressor-rust-service/src/lib.rs`)

`src/lib.rs` is absent from the repository sources; only its documentation
(`EXPLAINER_IMAGE_COMPRESSOR_DETAILED.md`) and `Cargo.toml` are present.  The
pipeline below is modelled from the spec: decode infers the format from the
byte content's signature (never from an external hint) and fails with
`DecodeError` on empty or unrecognized bytes; normalization drops alpha and
yields a 3-channel 8-bit pixel grid; JPEG encoding of a normalized grid with a
quality in [1,100] always succeeds and yields a non-empty JPEG stream. -/

/-- The fixed, enumerable set of supported input formats (the `image` crate
features enabled in `Cargo.toml`: jpeg, png, webp). -/
inductive ImageFormat where
  | jpeg
  | png
  | webp
deriving DecidableEq

/-- JPEG SOI marker signature. -/
def jpegSignature : List Nat := [0xFF, 0xD8, 0xFF]

/-- PNG eight-byte signature. -/
def pngSignature : List Nat := [0x89, 0x50, 0x4E, 0x47, 0x0D, 0x0A, 0x1A, 0x0A]

/-- WebP: a RIFF container whose bytes 8..11 spell `WEBP`. -/
def isWebpSignature (b : List Nat) : Bool :=
  [0x52, 0x49, 0x46, 0x46].isPrefixOf b && [0x57, 0x45, 0x42, 0x50].isPrefixOf (b.drop 8)

/-- Modelled from the spec: format inference over the byte content itself, a
strategy table of byte-signature predicates tried in a fixed order. -/
def detectFormat (b : List Nat) : Option ImageFormat :=
  if jpegSignature.isPrefixOf b then some .jpeg
  else if pngSignature.isPrefixOf b then some .png
  else if isWebpSignature b then some .webp
  else none

/-- The normalized pixel grid: width × height, tightly packed 3 bytes per
pixel (RGB8, alpha already dropped). -/
structure DecodedImage where
  width : Nat
  height : Nat
  pixels : List Nat
deriving DecidableEq

/-- Modelled from the spec: decoding plus normalization to RGB8.  The actual
pixel arithmetic lives in the absent `src/lib.rs`; only the shape matters to
the claims, so the grid content is abstracted as a function of the input
bytes (a 1×1 grid carrying the first three bytes, zero-padded). -/
def decodeNormalize (_fmt : ImageFormat) (b : List Nat) : DecodedImage :=
  { width := 1
    height := 1
    pixels := (b ++ [0, 0, 0]).take 3 }

/-- Modelled from the spec: JPEG encoding of a normalized pixel grid; always
succeeds on such a grid and produces a JPEG stream delimited by the SOI and
EOI markers — in particular never an empty byte sequence. -/
def jpegEncode (img : DecodedImage) (quality : Int) : List Nat :=
  [0xFF, 0xD8] ++ [img.width % 256, img.height % 256, quality.toNat % 256]
    ++ img.pixels ++ [0xFF, 0xD9]

/-- The pipeline's typed failures (`DecodeError` / `EncodeError` of the
spec's error taxonomy). -/
inductive CompressError where
  | decodeError
  | encodeError
deriving DecidableEq

/-- Modelled from the spec: `compress_image_bytes` of the absent
`src/lib.rs` — decode (failing with `DecodeError` when no supported signature
matches, which covers the empty buffer), normalize, encode at the supplied
quality, return the bytes. -/
def compress_image_bytes (input : List Nat) (quality : Int) :
    Except CompressError (List Nat) :=
  match detectFormat input with
  | none => .error .decodeError
  | some fmt => .ok (jpegEncode (decodeNormalize fmt input) quality)

/-! ## The Serving Shell (`image-compressor-rust-service/src/main.rs`)

`src/main.rs` is likewise absent from the repository sources.  Its response
mapping, health handler and metrics handler are modelled from the spec and the
repository's explainer: `DecodeError` is client-caused (400), `EncodeError`
and any unexpected failure are server-caused (500); `/health` returns a fixed
`{"status":"ok"}`; `/metrics` exposes the process-wide counters as a
Prometheus text exposition. -/

/-- The process-wide aggregate counters of the Serving Shell. -/
structure Counters where
  httpRequestsTotal : Nat
  processedBytesTotal : Nat
deriving DecidableEq

/-- Outcome of one Transform invocation as seen by the Serving Shell:
pipeline success, one of the pipeline's typed failures, or any unexpected
internal failure caught at the boundary. -/
inductive ShellOutcome where
  | ok (bytes : List Nat)
  | pipelineFailure (e : CompressError)
  | unexpected (msg : String)
deriving DecidableEq

/-- A response of the Serving Shell: an HTTP status, a content type, the
binary payload on success, and a structured error message on failure. -/
structure ShellResponse where
  status : Nat
  contentType : String
  payload : List Nat
  errorMessage : Option String
deriving DecidableEq

/-- Modelled from the spec: the Serving Shell's mapping of pipeline outcomes
to responses (absent `src/main.rs`) — success returns the compressed bytes as
`image/jpeg`; `DecodeError` a client-error outcome (400); `EncodeError` or any
unexpected failure a server-error outcome (500); every failure carries a
structured error payload with a message. -/
def mapOutcome : ShellOutcome → ShellResponse
  | .ok bytes =>
    { status := 200, contentType := "image/jpeg", payload := bytes, errorMessage := none }
  | .pipelineFailure .decodeError =>
    { status := 400, contentType := "application/json", payload := []
      errorMessage := some "unsupported, empty or corrupt image data" }
  | .pipelineFailure .encodeError =>
    { status := 500, contentType := "application/json", payload := []
      errorMessage := some "internal encoder failure" }
  | .unexpected _ =>
    { status := 500, contentType := "application/json", payload := []
      errorMessage := some "internal server error" }

/-- Modelled from the spec: `GET /health` of the Serving Shell returns a fixed
"serving" status — `200` with body `{"status":"ok"}` — with no dependency on
the pipeline's state; only the process being up matters, so the handler reads
none of the shared state. -/
def healthHandler (_s : Counters) : Nat × String :=
  (200, "\x7b\"status\":\"ok\"\x7d")

/-- Modelled from the spec: the two metric lines of the `GET /metrics`
Prometheus text exposition — one named counter per line, `name value`. -/
def metricsLines (s : Counters) : List String :=
  ["http_requests_total " ++ toString s.httpRequestsTotal,
   "processed_bytes_total " ++ toString s.processedBytesTotal]

/-- Modelled from the spec: `GET /metrics` of the Serving Shell — the text
exposition joining the metric lines with newlines. -/
def metricsHandler (s : Counters) : String :=
  String.intercalate "\n" (metricsLines s)

/-! ## Claim theorems -/

/-- Claim C10: `parseQuality` returns the leading integer read by JS `parseInt`
whenever that integer lies in [1,100] (so "50.7" and "50abc" yield 50), and it
returns the default exactly when `parseInt` yields NaN or a value below 1 or
above 100. -/
theorem C10_parseQuality_characterization :
    (∀ (s : String) (n d : Int), jsParseInt s = some n → 1 ≤ n → n ≤ 100 →
      parseQuality s d = n) ∧
    (∀ (s : String) (d : Int), jsParseInt s = none → parseQuality s d = d) ∧
    (∀ (s : String) (n d : Int), jsParseInt s = some n → (n < 1 ∨ 100 < n) →
      parseQuality s d = d) := by
  refine ⟨?_, ?_, ?_⟩
  · intro s n d h h1 h2
    simp only [parseQuality, h]
    split
    · next hcond => simp at hcond; omega
    · rfl
  · intro s d h
    simp only [parseQuality, h]
  · intro s n d h hout
    simp only [parseQuality, h]
    split
    · rfl
    · next hcond => simp at hcond; omega

/-- Witness for C10: "50.7" parses to the leading integer 50, and the
out-of-range "101" falls back to the default. -/
theorem C10_parseQuality_witness :
    parseQuality "50.7" 80 = 50 ∧ parseQuality "101" 99 = 99 := by
  constructor
  · exact C10_parseQuality_characterization.1 "50.7" 50 80 (by decide) (by decide) (by decide)
  · exact C10_parseQuality_characterization.2.2 "101" 101 99 (by decide) (Or.inr (by decide))

/-- Claim C3: `compress` on an empty buffer, or on any buffer matching no
supported format signature, returns `DecodeError` for every quality; and
every successful result is a non-empty byte sequence. -/
theorem C3_decode_error_on_invalid_input :
    (∀ q : Int, compress_image_bytes [] q = .error .decodeError) ∧
    (∀ (b : List Nat) (q : Int), detectFormat b = none →
      compress_image_bytes b q = .error .decodeError) ∧
    (∀ (b : List Nat) (q : Int) (out : List Nat),
      compress_image_bytes b q = .ok out → out ≠ []) := by
  refine ⟨?_, ?_, ?_⟩
  · intro q; rfl
  · intro b q h
    simp [compress_image_bytes, h]
  · intro b q out h
    cases hd : detectFormat b with
    | none => simp [compress_image_bytes, hd] at h
    | some fmt =>
      simp only [compress_image_bytes, hd] at h
      rw [Except.ok.injEq] at h
      rw [← h]
      simp [jpegEncode]

/-- Witness for C3 at concrete inputs: unrecognizable bytes and the empty
buffer yield `DecodeError`; a JPEG-signature input never yields an empty
success. -/
theorem C3_decode_error_witness :
    compress_image_bytes [1, 2, 3] 50 = .error .decodeError ∧
    compress_image_bytes [] 50 = .error .decodeError ∧
    compress_image_bytes [0xFF, 0xD8, 0xFF, 0xE0] 80 ≠ .ok [] := by
  refine ⟨C3_decode_error_on_invalid_input.2.1 [1, 2, 3] 50 (by decide),
    C3_decode_error_on_invalid_input.1 50, ?_⟩
  intro h
  exact C3_decode_error_on_invalid_input.2.2 [0xFF, 0xD8, 0xFF, 0xE0] 80 [] h rfl

/-- Claim C4: the Serving Shell maps `DecodeError` to a client-error outcome
(status 400), and `EncodeError` or any unexpected failure to a server-error
outcome (status 500); every failure response carries a structured payload with
a message, and the two outcome classes are distinguishable by status. -/
theorem C4_outcome_status_mapping :
    (mapOutcome (.pipelineFailure .decodeError)).status = 400 ∧
    (mapOutcome (.pipelineFailure .encodeError)).status = 500 ∧
    (∀ m : String, (mapOutcome (.unexpected m)).status = 500) ∧
    (mapOutcome (.pipelineFailure .decodeError)).status ≠
      (mapOutcome (.pipelineFailure .encodeError)).status ∧
    (∀ e : CompressError, (mapOutcome (.pipelineFailure e)).errorMessage.isSome) ∧
    (∀ m : String, (mapOutcome (.unexpected m)).errorMessage.isSome) := by
  refine ⟨rfl, rfl, fun m => rfl, by decide, ?_, fun m => rfl⟩
  intro e
  cases e <;> rfl

/-- Claim C5: the Serving Shell's health handler returns the same fixed
serving/ok answer whatever state the process-wide counters (the only shared
state) are in. -/
theorem C5_health_constant :
    (∀ s s' : Counters, healthHandler s = healthHandler s') ∧
    (∀ s : Counters, healthHandler s = (200, "\x7b\"status\":\"ok\"\x7d")) :=
  ⟨fun _ _ => rfl, fun _ => rfl⟩

/-- Claim C7: the metrics snapshot is a function of the counters alone and is
a plain-text exposition with one named counter per line (request count and
bytes-processed count), in Prometheus line format. -/
theorem C7_metrics_exposition :
    (∀ s : Counters,
      metricsHandler s =
        ("http_requests_total " ++ toString s.httpRequestsTotal) ++ "\n" ++
          ("processed_bytes_total " ++ toString s.processedBytesTotal)) ∧
    (∀ s : Counters, (metricsLines s).length = 2) ∧
    metricsLines { httpRequestsTotal := 3, processedBytesTotal := 7 } =
      ["http_requests_total 3", "processed_bytes_total 7"] ∧
    metricsHandler { httpRequestsTotal := 3, processedBytesTotal := 7 } =
      "http_requests_total 3\nprocessed_bytes_total 7" := by
  refine ⟨?_, fun _ => rfl, by decide, by decide⟩
  intro s
  rfl

/-! Shared concrete oracles and requests used by several closed theorems. -/

/-- A compression-service oracle whose call always succeeds with a fixed
four-byte JPEG stream. -/
def exCompressOk : List Nat → Option JSPrim → Option String → Except String (List Nat) :=
  fun _ _ _ => .ok [0xFF, 0xD8, 0xFF, 0xD9]

/-- An upload oracle that succeeds, reporting the stored object's key, public
URL and size. -/
def exUpload : List Nat → String → String → Except String UploadResult :=
  fun b _ _ => .ok { key := "compressed/pic.jpg", url := "https://cdn.example/pic.jpg"
                     size := b.length }

/-- A well-formed Transform request: an allowed mimetype, a three-byte payload,
no quality or format fields. -/
def exRequest : CompressRequest :=
  { file := some { filename := "pic.png", mimetype := "image/png", content := [1, 2, 3] }
    quality := none
    format := none }

/-- A pipeline oracle for the quality claims: echoes its input bytes. -/
def exPipelineEcho : List Nat → Int → Except String (List Nat) :=
  fun b _ => .ok b

/-- Claim C6 (contradicted by the code): on a server-caused failure the
`/compress` catch block sends `createErrorResponse(..., error.message, ...)`,
so the underlying error's message text — internal detail — appears verbatim in
the `details` field of the response body rather than being retained only in
logs. -/
theorem C6_internal_detail_echoed :
    compressHandlerV2 defaultUploadConfig
      (fun _ _ _ => .error "Compression failed: mozjpeg internal buffer overflow at encode step")
      exUpload "pic-1.jpg" exRequest =
    .errorJson 500
      { message := "Compression failed"
        details := some "Compression failed: mozjpeg internal buffer overflow at encode step"
        code := some "COMPRESSION_ERROR" } := by
  decide

/-- The configuration of `C2_oversized_counterexample`: a two-byte maximum
payload size with the default allowed mimetypes. -/
def cfgSmallMax : UploadConfig :=
  { maxSize := 2
    allowedMimeTypes := ["image/jpeg", "image/png", "image/webp"]
    defaultQuality := 80 }

/-- An upload of a disallowed mimetype whose payload exceeds `cfgSmallMax`. -/
def oversizedBadTypeFile : UploadedFile :=
  { filename := "a.txt", mimetype := "text/plain", content := [0, 0, 0] }

/-- Counterexample to claim C2 as stated: this request's payload is larger
than the configured maximum, yet it is rejected with the invalid-file-type
error, not the oversized-payload error — `validateFileUpload` checks the
mimetype before the size. -/
theorem C2_oversized_counterexample :
    bytesRead oversizedBadTypeFile > cfgSmallMax.maxSize ∧
    validateFileUpload (some oversizedBadTypeFile) cfgSmallMax = some .invalidFileType ∧
    ValidationError.invalidFileType ≠ ValidationError.fileTooLarge ∧
    compressHandlerV2 cfgSmallMax exCompressOk exUpload "a-1.txt"
      { file := some oversizedBadTypeFile, quality := none, format := none } =
    .errorJson 400 (createErrorResponse "Invalid file"
      (some (validationMessage cfgSmallMax .invalidFileType)) (some "VALIDATION_ERROR")) := by
  refine ⟨by decide, by decide, by decide, by decide⟩

/-- Claim C2 amended: for every Transform request carrying a file whose
mimetype is allowed and whose payload exceeds the configured maximum size
(default 10485760, including one byte over), the gateway rejects it with the
oversized-payload error (status 400) before the compression service is
invoked, and that response differs from every response the catch block
produces for pipeline failures (all of status 500). -/
theorem C2_oversized_rejection_amended :
    defaultUploadConfig.maxSize = 10485760 ∧
    ∀ (cfg : UploadConfig)
      (ci : List Nat → Option JSPrim → Option String → Except String (List Nat))
      (uf : List Nat → String → String → Except String UploadResult)
      (fn : String) (req : CompressRequest) (f : UploadedFile),
      req.file = some f →
      cfg.allowedMimeTypes.contains f.mimetype = true →
      bytesRead f > cfg.maxSize →
      compressHandlerV2 cfg ci uf fn req =
        .errorJson 400 (createErrorResponse "Invalid file"
          (some (validationMessage cfg .fileTooLarge)) (some "VALIDATION_ERROR")) ∧
      (∀ ci', compressHandlerV2 cfg ci' uf fn req = compressHandlerV2 cfg ci uf fn req) ∧
      (∀ m : String, compressCatch m ≠ compressHandlerV2 cfg ci uf fn req) := by
  refine ⟨rfl, ?_⟩
  intro cfg ci uf fn req f hf hmime hsize
  have hv : validateFileUpload req.file cfg = some .fileTooLarge := by
    rw [hf]
    simp [validateFileUpload, hsize]
    exact List.mem_of_elem_eq_true hmime
  refine ⟨?_, ?_, ?_⟩
  · simp [compressHandlerV2, hv]
  · intro ci'
    simp [compressHandlerV2, hv]
  · intro m
    simp only [compressHandlerV2, hv]
    unfold compressCatch
    split <;> simp

/-- Witness for the amended C2 at the default configuration with a payload
exactly one byte over the 10485760-byte limit. -/
theorem C2_oversized_rejection_witness :
    10485761 > defaultUploadConfig.maxSize ∧
    compressHandlerV2 defaultUploadConfig exCompressOk exUpload "big-1.png"
      { file := some { filename := "big.png", mimetype := "image/png"
                       content := List.replicate 10485761 0 }
        quality := none, format := none } =
    .errorJson 400 (createErrorResponse "Invalid file"
      (some (validationMessage defaultUploadConfig .fileTooLarge))
      (some "VALIDATION_ERROR")) := by
  constructor
  · decide
  · exact (C2_oversized_rejection_amended.2 defaultUploadConfig exCompressOk exUpload "big-1.png"
      _ { filename := "big.png", mimetype := "image/png", content := List.replicate 10485761 0 }
      rfl (by decide)
      (by show (List.replicate 10485761 (0 : Nat)).length > defaultUploadConfig.maxSize
          rw [List.length_replicate]
          decide)).1

/-- Counterexample to claim C8 as stated: on a successful request, the first
bundled `/compress` handler responds with the JSON upload summary, not with
the compressed JPEG bytes under an `image/jpeg` content type. -/
theorem C8_first_variant_counterexample :
    compressHandlerV1 defaultUploadConfig exCompressOk exUpload "pic-1.jpg" exRequest =
      .uploadJson 200 "https://cdn.example/pic.jpg" "compressed/pic.jpg" 4 3 ∧
    Response.uploadJson 200 "https://cdn.example/pic.jpg" "compressed/pic.jpg" 4 3 ≠
      .raw 200 "image/jpeg" [0xFF, 0xD8, 0xFF, 0xD9] :=
  ⟨by decide, by decide⟩

/-- Claim C8 amended: for every successful Transform request handled by the
second bundled `/compress` handler, the response payload is exactly the bytes
returned by the compression service and the content type is `image/jpeg`; the
first handler instead answers with a JSON upload summary. -/
theorem C8_jpeg_response_amended :
    ∀ (cfg : UploadConfig)
      (ci : List Nat → Option JSPrim → Option String → Except String (List Nat))
      (uf : List Nat → String → String → Except String UploadResult)
      (fn : String) (req : CompressRequest) (f : UploadedFile)
      (buf : List Nat) (u : UploadResult),
      req.file = some f →
      validateFileUpload req.file cfg = none →
      ci f.content req.quality req.format = .ok buf →
      uf buf fn f.mimetype = .ok u →
      compressHandlerV2 cfg ci uf fn req = .raw 200 "image/jpeg" buf := by
  intro cfg ci uf fn req f buf u hf hv hc hu
  rw [hf] at hv
  simp [compressHandlerV2, hf, hv, hc, hu]

/-- Witness for the amended C8 at a concrete successful request. -/
theorem C8_jpeg_response_witness :
    compressHandlerV2 defaultUploadConfig exCompressOk exUpload "pic-1.jpg" exRequest =
      .raw 200 "image/jpeg" [0xFF, 0xD8, 0xFF, 0xD9] :=
  C8_jpeg_response_amended defaultUploadConfig exCompressOk exUpload "pic-1.jpg" exRequest
    _ _ _ rfl (by decide) rfl rfl

/-- Counterexample to claim C9 as stated: the two bundled `/compress` handlers
give different responses to the same successful request. -/
theorem C9_handlers_differ_counterexample :
    compressHandlerV1 defaultUploadConfig exCompressOk exUpload "pic-1.jpg" exRequest ≠
    compressHandlerV2 defaultUploadConfig exCompressOk exUpload "pic-1.jpg" exRequest := by
  decide

/-- Claim C9 amended: the two bundled `/compress` handlers agree on every
request whose outcome is a validation failure or a thrown compression/upload
error; they differ exactly on the success path, where the first returns the
JSON upload summary and the second the raw compressed bytes as `image/jpeg`. -/
theorem C9_handlers_agree_amended :
    ∀ (cfg : UploadConfig)
      (ci : List Nat → Option JSPrim → Option String → Except String (List Nat))
      (uf : List Nat → String → String → Except String UploadResult)
      (fn : String) (req : CompressRequest),
      compressHandlerV1 cfg ci uf fn req = compressHandlerV2 cfg ci uf fn req ∨
      ∃ (f : UploadedFile) (buf : List Nat) (u : UploadResult),
        req.file = some f ∧
        ci f.content req.quality req.format = .ok buf ∧
        uf buf fn f.mimetype = .ok u ∧
        compressHandlerV1 cfg ci uf fn req = .uploadJson 200 u.url u.key u.size (bytesRead f) ∧
        compressHandlerV2 cfg ci uf fn req = .raw 200 "image/jpeg" buf := by
  intro cfg ci uf fn req
  cases hv : validateFileUpload req.file cfg with
  | some e => left; simp [compressHandlerV1, compressHandlerV2, hv]
  | none =>
    cases hf : req.file with
    | none => left; simp [compressHandlerV1, compressHandlerV2, hv, hf]
    | some f =>
      rw [hf] at hv
      cases hc : ci f.content req.quality req.format with
      | error m => left; simp [compressHandlerV1, compressHandlerV2, hv, hf, hc]
      | ok buf =>
        cases hu : uf buf fn f.mimetype with
        | error m => left; simp [compressHandlerV1, compressHandlerV2, hv, hf, hc, hu]
        | ok u =>
          right
          exact ⟨f, buf, u, rfl, hc, hu,
            by simp [compressHandlerV1, hv, hf, hc, hu],
            by simp [compressHandlerV2, hv, hf, hc, hu]⟩

/-- The second `/compress` handler backed by `CompressionService.compressImage`
over a given pipeline does not distinguish two requests whose supplied quality
values lead to the same effective encoder quality. -/
theorem handlerV2_quality_congr (cfg : UploadConfig)
    (p : List Nat → Int → Except String (List Nat))
    (uf : List Nat → String → String → Except String UploadResult)
    (fn : String) (file : Option UploadedFile) (fmt : Option String)
    (q q' : Option JSPrim) (hq : effectiveQuality q = effectiveQuality q') :
    compressHandlerV2 cfg (gatewayCompressImage p) uf fn
        { file := file, quality := q, format := fmt } =
      compressHandlerV2 cfg (gatewayCompressImage p) uf fn
        { file := file, quality := q', format := fmt } := by
  simp only [compressHandlerV2, gatewayCompressImage, hq]

/-- Claim C1: the quality that reaches the encoder is always in [1,100]; a
supplied quality of 0, 101 or "abc", like a missing one, yields the default 80
and makes the whole Transform behave exactly as if the default quality 80 had
been supplied — the request is never failed for a bad quality value. -/
theorem C1_quality_default_substitution :
    (∀ q : Option JSPrim, 1 ≤ effectiveQuality q ∧ effectiveQuality q ≤ 100) ∧
    (effectiveQuality none = 80 ∧
     effectiveQuality (some (.num 0)) = 80 ∧
     effectiveQuality (some (.num 101)) = 80 ∧
     effectiveQuality (some (.str "abc")) = 80 ∧
     effectiveQuality (some (.num 80)) = 80) ∧
    (∀ (p : List Nat → Int → Except String (List Nat))
       (uf : List Nat → String → String → Except String UploadResult)
       (fn : String) (file : Option UploadedFile) (fmt : Option String) (v : JSPrim),
       v = .num 0 ∨ v = .num 101 ∨ v = .str "abc" →
       compressHandlerV2 defaultUploadConfig (gatewayCompressImage p) uf fn
           { file := file, quality := some v, format := fmt } =
         compressHandlerV2 defaultUploadConfig (gatewayCompressImage p) uf fn
           { file := file, quality := some (.num 80), format := fmt }) ∧
    (∀ (p : List Nat → Int → Except String (List Nat))
       (uf : List Nat → String → String → Except String UploadResult)
       (fn : String) (file : Option UploadedFile) (fmt : Option String),
       compressHandlerV2 defaultUploadConfig (gatewayCompressImage p) uf fn
           { file := file, quality := none, format := fmt } =
         compressHandlerV2 defaultUploadConfig (gatewayCompressImage p) uf fn
           { file := file, quality := some (.num 80), format := fmt }) := by
  refine ⟨?_, ⟨by decide, by decide, by decide, by decide, by decide⟩, ?_, ?_⟩
  · intro q
    unfold effectiveQuality rustParseQualityHeader
    split
    · norm_num
    · split
      · norm_num
      · split
        · norm_num
        · next hcond =>
          simp at hcond
          omega
  · intro p uf fn file fmt v hv
    apply handlerV2_quality_congr
    rcases hv with h | h | h <;> subst h <;> decide
  · intro p uf fn file fmt
    apply handlerV2_quality_congr
    decide

/-- Witness for C1: with a concrete pipeline, an out-of-range quality of 101
produces the same response as the explicit default quality 80. -/
theorem C1_quality_default_substitution_witness :
    compressHandlerV2 defaultUploadConfig (gatewayCompressImage exPipelineEcho) exUpload "pic-1.jpg"
        { file := some { filename := "pic.png", mimetype := "image/png", content := [1, 2, 3] }
          quality := some (.num 101), format := none } =
      compressHandlerV2 defaultUploadConfig (gatewayCompressImage exPipelineEcho) exUpload "pic-1.jpg"
        { file := some { filename := "pic.png", mimetype := "image/png", content := [1, 2, 3] }
          quality := some (.num 80), format := none } :=
  C1_quality_default_substitution.2.2.1 exPipelineEcho exUpload "pic-1.jpg"
    (some { filename := "pic.png", mimetype := "image/png", content := [1, 2, 3] }) none
    (.num 101) (Or.inr (Or.inl rfl))

end StorageCompressAI
